import Mathlib

/-!
Verification of the health-check HTTP server (`health-check-server.py`).

The handler logic of `HealthCheckHandler` is embedded shallowly:

* `pyStrip`        — Python `str.strip()` on the ASCII whitespace set;
* `splitNl`/`joinNl` — Python `str.split('\n')` and `'\n'.join(...)`;
* `cleanOutput`    — the stdout-sanitization block of `do_GET` (lines 31–40);
* `jsonValid`      — validity of a string under Python `json.loads`
                     (the handler only inspects parse success/failure);
* `errorBody` / `sendErrorResponse` — `send_error_response` (lines 76–86),
  with the wall-clock timestamp made an explicit parameter;
* `doGET` / `HealthCheckHandler.handle` — `do_GET` and the method dispatch,
  with the outcome of the `subprocess.run` call made an explicit
  `ProbeOutcome` argument (completed / timed out / raised exception).
-/

namespace HealthCheckServer

/-- The ASCII whitespace characters removed by Python `str.strip()`. -/
def pyIsSpace (c : Char) : Bool :=
  c = ' ' || c = '\t' || c = '\n' || c = '\r' || c = '\x0b' || c = '\x0c'

/-- Strip leading and trailing whitespace from a character list
(Python `str.strip()`). -/
def stripChars (l : List Char) : List Char :=
  ((l.dropWhile pyIsSpace).reverse.dropWhile pyIsSpace).reverse

/-- Python `str.strip()`. -/
def pyStrip (s : String) : String :=
  ⟨stripChars s.data⟩

/-- Python `str.startswith(pat)` on character lists. -/
def beginsWith : List Char → List Char → Bool
  | [], _ => true
  | _ :: _, [] => false
  | p :: ps, c :: cs => p = c && beginsWith ps cs

/-- Python `pat in s` (substring containment) on character lists. -/
def containsSub (pat : List Char) : List Char → Bool
  | [] => beginsWith pat []
  | c :: cs => beginsWith pat (c :: cs) || containsSub pat cs

/-- Python `s.split('\n')`. -/
def splitNl : List Char → List (List Char)
  | [] => [[]]
  | c :: cs =>
    match splitNl cs with
    | [] => [[c]]
    | l :: ls => if c = '\n' then [] :: l :: ls else (c :: l) :: ls

/-- Python `'\n'.join(lines)`. -/
def joinNl : List (List Char) → List Char
  | [] => []
  | [l] => l
  | l :: l2 :: ls => l ++ '\n' :: joinNl (l2 :: ls)

/-- The probe's invocation path,
`/usr/local/bin/global-health-check.sh`. -/
def scriptPath : List Char :=
  "/usr/local/bin/global-health-check.sh".data

/-- The stdout-sanitization block of `do_GET` (lines 31–40): strip, and if
the result contains `"EOF"`, drop every line starting with the script path,
re-join, and re-strip. -/
def cleanChars (stdout : List Char) : List Char :=
  let output := stripChars stdout
  if containsSub "EOF".data output then
    let lines := splitNl output
    let jsonLines := lines.filter fun line => !beginsWith scriptPath line
    stripChars (joinNl jsonLines)
  else
    output

/-- String-level wrapper of `cleanChars`. -/
def cleanOutput (stdout : String) : String :=
  ⟨cleanChars stdout.data⟩

/-! ### JSON validity (Python `json.loads`)

`do_GET` only checks whether `json.loads(output)` succeeds.  The checker
below follows the grammar accepted by Python's decoder: a single JSON
value (object, array, string, number, `true`, `false`, `null`, plus the
Python extensions `NaN`, `Infinity`, `-Infinity`) surrounded by optional
JSON whitespace, strings in strict mode (no raw control characters). -/

/-- JSON whitespace (`[ \t\n\r]`, Python `json.decoder.WHITESPACE`). -/
def jsonWs (c : Char) : Bool :=
  c = ' ' || c = '\t' || c = '\n' || c = '\r'

/-- Drop leading JSON whitespace. -/
def skipWs (l : List Char) : List Char :=
  l.dropWhile jsonWs

/-- Hexadecimal digit test for `\uXXXX` escapes. -/
def isHexDig (c : Char) : Bool :=
  c.isDigit || ('a' ≤ c && c ≤ 'f') || ('A' ≤ c && c ≤ 'F')

/-- Consume the remainder of a JSON string after the opening quote,
returning the input after the closing quote.  Strict mode: raw control
characters below `0x20` are rejected; escapes are the eight short ones
plus `\uXXXX`. -/
def stringRest : List Char → Option (List Char)
  | [] => none
  | c :: rest =>
    if c = '"' then some rest
    else if c = '\\' then
      match rest with
      | 'u' :: h1 :: h2 :: h3 :: h4 :: rest2 =>
        if isHexDig h1 && isHexDig h2 && isHexDig h3 && isHexDig h4 then
          stringRest rest2
        else none
      | e :: rest2 =>
        if e = '"' || e = '\\' || e = '/' || e = 'b' || e = 'f' || e = 'n'
            || e = 'r' || e = 't' then
          stringRest rest2
        else none
      | [] => none
    else if c.toNat < 0x20 then none
    else stringRest rest

/-- Consume one or more decimal digits. -/
def digits1 : List Char → Option (List Char)
  | c :: rest =>
    if c.isDigit then some (rest.dropWhile Char.isDigit) else none
  | [] => none

/-- Consume a JSON number following Python's `NUMBER_RE`:
`-?(0|[1-9][0-9]*)(\.[0-9]+)?([eE][-+]?[0-9]+)?`, matched greedily with
the fractional and exponent parts optional. -/
def numberRest (l : List Char) : Option (List Char) :=
  let afterSign := if beginsWith ['-'] l then l.drop 1 else l
  let intDone : Option (List Char) :=
    match afterSign with
    | c :: rest =>
      if c = '0' then some rest
      else if c.isDigit then some (rest.dropWhile Char.isDigit)
      else none
    | [] => none
  match intDone with
  | none => none
  | some r1 =>
    let r2 :=
      match r1 with
      | '.' :: d :: rest => if d.isDigit then rest.dropWhile Char.isDigit else r1
      | _ => r1
    let r3 :=
      match r2 with
      | e :: tail =>
        if e = 'e' || e = 'E' then
          match tail with
          | s :: d :: rest =>
            if (s = '+' || s = '-') && d.isDigit then rest.dropWhile Char.isDigit
            else if s.isDigit then (d :: rest).dropWhile Char.isDigit
            else r2
          | [d] => if d.isDigit then [] else r2
          | [] => r2
        else r2
      | [] => r2
    some r3

mutual

/-- Consume one JSON value; `fuel` bounds the recursion depth. -/
def valueRest : Nat → List Char → Option (List Char)
  | 0, _ => none
  | _ + 1, [] => none
  | fuel + 1, c :: rest =>
    if c = '"' then stringRest rest
    else if c = '\x7b' then objectRest fuel (skipWs rest)
    else if c = '[' then arrayRest fuel (skipWs rest)
    else if beginsWith "null".data (c :: rest) then some ((c :: rest).drop 4)
    else if beginsWith "true".data (c :: rest) then some ((c :: rest).drop 4)
    else if beginsWith "false".data (c :: rest) then some ((c :: rest).drop 5)
    else if beginsWith "NaN".data (c :: rest) then some ((c :: rest).drop 3)
    else if beginsWith "Infinity".data (c :: rest) then some ((c :: rest).drop 8)
    else if beginsWith "-Infinity".data (c :: rest) then some ((c :: rest).drop 9)
    else numberRest (c :: rest)

/-- Consume the body of a JSON object after `{` and leading whitespace. -/
def objectRest : Nat → List Char → Option (List Char)
  | 0, _ => none
  | fuel + 1, l =>
    match l with
    | '\x7d' :: rest => some rest
    | _ => membersRest fuel l

/-- Consume one or more `"key": value` members followed by `}`. -/
def membersRest : Nat → List Char → Option (List Char)
  | 0, _ => none
  | fuel + 1, l =>
    match l with
    | '"' :: r =>
      match stringRest r with
      | some r1 =>
        match skipWs r1 with
        | ':' :: r2 =>
          match valueRest fuel (skipWs r2) with
          | some r3 =>
            match skipWs r3 with
            | '\x7d' :: r4 => some r4
            | ',' :: r4 => membersRest fuel (skipWs r4)
            | _ => none
          | none => none
        | _ => none
      | none => none
    | _ => none

/-- Consume the body of a JSON array after `[` and leading whitespace. -/
def arrayRest : Nat → List Char → Option (List Char)
  | 0, _ => none
  | fuel + 1, l =>
    match l with
    | ']' :: rest => some rest
    | _ => elemsRest fuel l

/-- Consume one or more array elements followed by `]`. -/
def elemsRest : Nat → List Char → Option (List Char)
  | 0, _ => none
  | fuel + 1, l =>
    match valueRest fuel l with
    | some r1 =>
      match skipWs r1 with
      | ']' :: r2 => some r2
      | ',' :: r2 => elemsRest fuel (skipWs r2)
      | _ => none
    | none => none

end

/-- Whether Python `json.loads` accepts `s`: one value, optionally
surrounded by JSON whitespace, consuming the whole input.  The fuel
`3 * length + 8` dominates the recursion depth, since every three fuel
decrements consume at least one input character. -/
def jsonValid (s : String) : Bool :=
  match valueRest (3 * s.length + 8) (skipWs s.data) with
  | some rest => (skipWs rest).isEmpty
  | none => false

/-! ### HTTP responses and the request handler -/

/-- An HTTP response as the handler produces it: status code, the
`Content-Type` header when one is sent, and the body bytes (as a
string; all bodies the handler writes are UTF-8 text). -/
structure Response where
  status : Nat
  contentType : Option String
  body : String
deriving DecidableEq, Repr

/-- Outcome of the `subprocess.run` call in `do_GET`:
`completed` carries captured stdout, stderr and the exit code;
`timedOut` is the `subprocess.TimeoutExpired` branch; `raised msg` is
any other exception `e` with `str(e) = msg` (e.g. launch failure). -/
inductive ProbeOutcome where
  | completed (stdout stderr : String) (returncode : Int)
  | timedOut
  | raised (msg : String)
deriving DecidableEq

/-- Lower-case hexadecimal digit, as `"%04x"` formatting produces. -/
def hexDig (n : Nat) : Char :=
  if n < 10 then Char.ofNat (48 + n) else Char.ofNat (87 + n)

/-- Four-digit lower-case hexadecimal rendering of `n % 0x10000`. -/
def hex4 (n : Nat) : List Char :=
  [hexDig (n / 4096 % 16), hexDig (n / 256 % 16), hexDig (n / 16 % 16),
   hexDig (n % 16)]

/-- Escaping of one character inside a JSON string as Python
`json.dumps` does with its default `ensure_ascii=True`: quote,
backslash and the five short control escapes get two-character forms,
other characters outside `0x20..0x7e` become `\uXXXX` (a surrogate
pair beyond the BMP), and printable ASCII passes through. -/
def escChar (c : Char) : List Char :=
  if c = '\\' then ['\\', '\\']
  else if c = '"' then ['\\', '"']
  else if c = '\x08' then ['\\', 'b']
  else if c = '\x0c' then ['\\', 'f']
  else if c = '\n' then ['\\', 'n']
  else if c = '\r' then ['\\', 'r']
  else if c = '\t' then ['\\', 't']
  else if 0x20 ≤ c.toNat && c.toNat ≤ 0x7e then [c]
  else if c.toNat < 0x10000 then '\\' :: 'u' :: hex4 c.toNat
  else
    ('\\' :: 'u' :: hex4 (0xd800 + (c.toNat - 0x10000) / 1024)) ++
    ('\\' :: 'u' :: hex4 (0xdc00 + (c.toNat - 0x10000) % 1024))

/-- Python `json.dumps` of a string value. -/
def jsonDumpString (s : String) : String :=
  ⟨'"' :: (s.data.map escChar).flatten ++ ['"']⟩

/-- The body built by `send_error_response` (lines 81–86):
`json.dumps({"status": "error", "message": message, "timestamp": ts})`
with `ts = int(time.time() * 1000)` passed in explicitly. -/
def errorBody (message : String) (ts : Int) : String :=
  "\x7b\"status\": \"error\", \"message\": " ++ jsonDumpString message ++
    ", \"timestamp\": " ++ toString ts ++ "\x7d"

/-- Embedding of `send_error_response` (lines 76–86): status 500, JSON content type,
and the error-envelope body. -/
def sendErrorResponse (message : String) (ts : Int) : Response :=
  { status := 500
    contentType := some "application/json"
    body := errorBody message ts }

/-- Embedding of `do_GET` (lines 18–69).  `path` is `self.path`; `probe` is the
outcome of the `subprocess.run` call (only consulted on the health
paths); `ts` is the wall-clock timestamp an error envelope would
carry. -/
def doGET (path : String) (probe : ProbeOutcome) (ts : Int) : Response :=
  if path ∈ ["/", "/health"] then
    match probe with
    | .completed stdout stderr returncode =>
      if returncode = 0 then
        let output := cleanOutput stdout
        if jsonValid output then
          { status := 200, contentType := some "application/json", body := output }
        else
          sendErrorResponse "Invalid JSON output from health check" ts
      else
        sendErrorResponse ("Health check script failed: " ++ stderr) ts
    | .timedOut => sendErrorResponse "Health check timed out" ts
    | .raised msg => sendErrorResponse ("Health check error: " ++ msg) ts
  else if path = "/ping" then
    { status := 200, contentType := some "text/plain", body := "pong" }
  else
    { status := 404, contentType := some "application/json",
      body := "\x7b\"error\": \"Not found\"\x7d" }

/-- The HTTP methods `HealthCheckHandler` defines handlers for. -/
inductive Method where
  | GET
  | OPTIONS
deriving DecidableEq

/-- Method dispatch of `HealthCheckHandler`: `do_GET` for GET, and
`do_OPTIONS` (lines 71–74: status 200, no content-type header, empty
body, for every path) for OPTIONS. -/
def HealthCheckHandler.handle (m : Method) (path : String)
    (probe : ProbeOutcome) (ts : Int) : Response :=
  match m with
  | .GET => doGET path probe ts
  | .OPTIONS => { status := 200, contentType := none, body := "" }

/-- The sanitization step as the spec words it (§4.2 step 4): strip
leading/trailing whitespace; exactly when the result contains the
sentinel marker `"EOF"`, remove every line beginning with the probe's
invocation path, re-join with newlines, and re-strip. -/
def cleanSpec (stdout : String) : String :=
  let stripped := pyStrip stdout
  if containsSub "EOF".data stripped.data then
    pyStrip ⟨joinNl ((splitNl stripped.data).filter
      fun line => !beginsWith scriptPath line)⟩
  else
    stripped

/-! ### Supporting lemmas -/

theorem splitNl_ne_nil (l : List Char) : splitNl l ≠ [] := by
  cases l with
  | nil => simp [splitNl]
  | cons c cs =>
    unfold splitNl
    rcases h : splitNl cs with _ | ⟨x, xs⟩
    · simp
    · by_cases hc : c = '\n' <;> simp [hc]

theorem joinNl_splitNl (l : List Char) : joinNl (splitNl l) = l := by
  induction l with
  | nil => rfl
  | cons c cs ih =>
    unfold splitNl
    rcases h : splitNl cs with _ | ⟨x, xs⟩
    · exact absurd h (splitNl_ne_nil cs)
    · rw [h] at ih
      by_cases hc : c = '\n'
      · subst hc
        simp only [if_pos rfl]
        show [] ++ '\n' :: joinNl (x :: xs) = '\n' :: cs
        rw [ih]
        rfl
      · simp only [if_neg hc]
        cases xs with
        | nil =>
          show c :: x = c :: cs
          simp only [joinNl] at ih
          rw [ih]
        | cons y ys =>
          show (c :: x) ++ '\n' :: joinNl (y :: ys) = c :: cs
          simp only [joinNl] at ih
          rw [List.cons_append, ih]

theorem dropWhile_idem (p : Char → Bool) (l : List Char) :
    (l.dropWhile p).dropWhile p = l.dropWhile p := by
  rcases h : l.dropWhile p with _ | ⟨c, t⟩
  · simp
  · have hc : p c = false := by
      have := List.head_dropWhile_not p l (by simp [h])
      simp only [h, List.head_cons] at this
      exact this
    rw [List.dropWhile_cons, hc]
    simp

theorem stripChars_idem (l : List Char) :
    stripChars (stripChars l) = stripChars l := by
  unfold stripChars
  have hA : (((l.dropWhile pyIsSpace).reverse.dropWhile pyIsSpace).reverse).dropWhile
      pyIsSpace = ((l.dropWhile pyIsSpace).reverse.dropWhile pyIsSpace).reverse := by
    rcases h : ((l.dropWhile pyIsSpace).reverse.dropWhile pyIsSpace).reverse
      with _ | ⟨c, t⟩
    · simp
    · have hpre : ((l.dropWhile pyIsSpace).reverse.dropWhile pyIsSpace).reverse
          <+: l.dropWhile pyIsSpace := by
        have hsuf := List.dropWhile_suffix (l := (l.dropWhile pyIsSpace).reverse) pyIsSpace
        have := List.reverse_prefix.mpr hsuf
        simpa using this
      rw [h] at hpre
      obtain ⟨t2, ht2⟩ := hpre
      have hcons : l.dropWhile pyIsSpace = c :: (t ++ t2) := by
        rw [← ht2]
        simp
      have hne : l.dropWhile pyIsSpace ≠ [] := by
        rw [hcons]
        simp
      have hhead := List.head_dropWhile_not pyIsSpace l hne
      simp only [hcons, List.head_cons] at hhead
      rw [List.dropWhile_cons, hhead]
      simp
  rw [hA, List.reverse_reverse, dropWhile_idem]

theorem cleanChars_of_all_lines_kept (stdout : List Char)
    (h : ∀ line ∈ splitNl (stripChars stdout),
      beginsWith scriptPath line = false) :
    cleanChars stdout = stripChars stdout := by
  unfold cleanChars
  by_cases he : containsSub "EOF".data (stripChars stdout) = true
  · simp only [he, if_true]
    have hfilter : (splitNl (stripChars stdout)).filter
        (fun line => !beginsWith scriptPath line) = splitNl (stripChars stdout) :=
      List.filter_eq_self.mpr (by
        intro a ha
        simp [h a ha])
    rw [hfilter, joinNl_splitNl, stripChars_idem]
  · simp [he]

/-! ### The claims -/

/-- C1: for every GET request to `/` or `/health` where the probe exits 0
and its cleaned stdout parses as JSON, the response has status 200,
content-type `application/json`, and a body that is byte-for-byte the
cleaned text itself; in particular, for probe stdout exactly
`{"status":"ok"}` the body is exactly `{"status":"ok"}`. -/
theorem claim1_valid_json_passthrough (path stdout stderr : String) (ts : Int)
    (hpath : path ∈ ["/", "/health"])
    (hjson : jsonValid (cleanOutput stdout) = true) :
    doGET path (.completed stdout stderr 0) ts =
      { status := 200, contentType := some "application/json",
        body := cleanOutput stdout } ∧
    doGET path (.completed "\x7b\"status\":\"ok\"\x7d" stderr 0) ts =
      { status := 200, contentType := some "application/json",
        body := "\x7b\"status\":\"ok\"\x7d" } := by
  refine ⟨by simp [doGET, hpath, hjson], ?_⟩
  have h2 : jsonValid (cleanOutput "\x7b\"status\":\"ok\"\x7d") = true := by decide
  have h3 : cleanOutput "\x7b\"status\":\"ok\"\x7d" = "\x7b\"status\":\"ok\"\x7d" := by
    decide
  rw [h3] at h2
  simp [doGET, hpath, h2, h3]

/-- Witness for C1 at probe stdout `{"status":"ok"}` on path `/`. -/
theorem claim1_witness :
    doGET "/" (.completed "\x7b\"status\":\"ok\"\x7d" "" 0) 0 =
      { status := 200, contentType := some "application/json",
        body := "\x7b\"status\":\"ok\"\x7d" } :=
  (claim1_valid_json_passthrough "/" "\x7b\"status\":\"ok\"\x7d" "" 0
    (by simp) (by decide)).2

/-- C2: for every GET request to `/` or `/health` where the probe run
times out, the response has status 500 and is the error envelope whose
message is exactly "Health check timed out". -/
theorem claim2_timeout_envelope (path : String) (ts : Int)
    (hpath : path ∈ ["/", "/health"]) :
    doGET path ProbeOutcome.timedOut ts =
      sendErrorResponse "Health check timed out" ts ∧
    (doGET path ProbeOutcome.timedOut ts).status = 500 ∧
    (doGET path ProbeOutcome.timedOut ts).body =
      errorBody "Health check timed out" ts := by
  have h : doGET path ProbeOutcome.timedOut ts =
      sendErrorResponse "Health check timed out" ts := by
    simp [doGET, hpath]
  exact ⟨h, by rw [h]; rfl, by rw [h]; rfl⟩

/-- Witness for C2 on path `/` at timestamp 0. -/
theorem claim2_witness :
    doGET "/" ProbeOutcome.timedOut 0 =
      sendErrorResponse "Health check timed out" 0 :=
  (claim2_timeout_envelope "/" 0 (by simp)).1

/-- C3: for every GET request to `/` or `/health` where the probe exits
with a non-zero code, the response has status 500 and is an error
envelope whose message contains the captured stderr text. -/
theorem claim3_nonzero_exit_stderr (path stdout stderr : String)
    (rc : Int) (ts : Int)
    (hpath : path ∈ ["/", "/health"]) (hrc : rc ≠ 0) :
    doGET path (.completed stdout stderr rc) ts =
      sendErrorResponse ("Health check script failed: " ++ stderr) ts ∧
    (doGET path (.completed stdout stderr rc) ts).status = 500 ∧
    stderr.data <:+: ("Health check script failed: " ++ stderr).data := by
  have h : doGET path (.completed stdout stderr rc) ts =
      sendErrorResponse ("Health check script failed: " ++ stderr) ts := by
    simp [doGET, hpath, hrc]
  refine ⟨h, by rw [h]; rfl, ⟨"Health check script failed: ".data, [], ?_⟩⟩
  simp [String.data_append]

/-- Witness for C3 with exit code 2 and stderr `disk full`. -/
theorem claim3_witness :
    doGET "/" (.completed "out" "disk full" 2) 1 =
      sendErrorResponse ("Health check script failed: " ++ "disk full") 1 :=
  (claim3_nonzero_exit_stderr "/" "out" "disk full" 2 1 (by simp) (by decide)).1

/-- C4: for every GET request to `/` or `/health` where the probe exits 0
but its cleaned stdout does not parse as JSON, the response has status
500 and is the error envelope whose message is exactly
"Invalid JSON output from health check". -/
theorem claim4_invalid_json_envelope (path stdout stderr : String) (ts : Int)
    (hpath : path ∈ ["/", "/health"])
    (hjson : jsonValid (cleanOutput stdout) = false) :
    doGET path (.completed stdout stderr 0) ts =
      sendErrorResponse "Invalid JSON output from health check" ts ∧
    (doGET path (.completed stdout stderr 0) ts).status = 500 := by
  have h : doGET path (.completed stdout stderr 0) ts =
      sendErrorResponse "Invalid JSON output from health check" ts := by
    simp [doGET, hpath, hjson]
  exact ⟨h, by rw [h]; rfl⟩

/-- Witness for C4 at probe stdout `not json`. -/
theorem claim4_witness :
    doGET "/health" (.completed "not json" "" 0) 3 =
      sendErrorResponse "Invalid JSON output from health check" 3 :=
  (claim4_invalid_json_envelope "/health" "not json" "" 3 (by simp) (by decide)).1

/-- C5: on exit 0 the stdout is stripped, and exactly when the result
contains the sentinel "EOF", every line beginning with the probe's
invocation path is removed before re-joining and re-stripping
(`cleanOutput` coincides with `cleanSpec`, the spec's wording of the
step); such known-malformed output is repaired and still yields a 200
response, shown on a garbage line followed by valid JSON. -/
theorem claim5_sanitization_refines_spec :
    (∀ stdout : String, cleanOutput stdout = cleanSpec stdout) ∧
    doGET "/"
      (.completed
        "/usr/local/bin/global-health-check.sh: warning: here-document delimited by EOF\n\x7b\"status\": \"healthy\"\x7d"
        "" 0) 0 =
      { status := 200, contentType := some "application/json",
        body := "\x7b\"status\": \"healthy\"\x7d" } := by
  constructor
  · intro stdout
    unfold cleanOutput cleanChars cleanSpec pyStrip
    by_cases h : containsSub "EOF".data (stripChars stdout.data) = true <;>
      simp [h]
  · decide

/-- C6 is refuted as stated: an OPTIONS request to an unknown path is
answered by `do_OPTIONS` with status 200, not 404. -/
theorem claim6_counterexample :
    (HealthCheckHandler.handle .OPTIONS "/unknown-path"
      ProbeOutcome.timedOut 0).status = 200 ∧
    ¬ (HealthCheckHandler.handle .OPTIONS "/unknown-path"
      ProbeOutcome.timedOut 0).status = 404 := by
  decide

/-- C6 (amended): for every GET request whose path is not `/`, `/health`
or `/ping`, the response has status 404, content-type
`application/json` and body exactly `{"error": "Not found"}`; OPTIONS
requests are instead answered 200 with an empty body for every path. -/
theorem claim6_get_not_found (path : String) (probe : ProbeOutcome) (ts : Int)
    (h1 : path ∉ (["/", "/health"] : List String)) (h2 : path ≠ "/ping") :
    HealthCheckHandler.handle .GET path probe ts =
      { status := 404, contentType := some "application/json",
        body := "\x7b\"error\": \"Not found\"\x7d" } ∧
    HealthCheckHandler.handle .OPTIONS path probe ts =
      { status := 200, contentType := none, body := "" } := by
  exact ⟨by simp [HealthCheckHandler.handle, doGET, h1, h2], rfl⟩

/-- Witness for C6 (amended) at path `/unknown-path`. -/
theorem claim6_witness :
    HealthCheckHandler.handle .GET "/unknown-path" ProbeOutcome.timedOut 0 =
      { status := 404, contentType := some "application/json",
        body := "\x7b\"error\": \"Not found\"\x7d" } :=
  (claim6_get_not_found "/unknown-path" ProbeOutcome.timedOut 0
    (by decide) (by decide)).1

/-- C7: a GET request to `/ping` is answered 200 `text/plain` `pong`
for every probe outcome and timestamp, and the response does not
depend on the probe outcome in any way (the probe is never consulted
on this path). -/
theorem claim7_ping (probe : ProbeOutcome) (ts : Int) :
    doGET "/ping" probe ts =
      { status := 200, contentType := some "text/plain", body := "pong" } ∧
    ∀ probe2 : ProbeOutcome, doGET "/ping" probe ts = doGET "/ping" probe2 ts := by
  constructor
  · rfl
  · intro probe2
    rfl

/-- C8: any exception from launching or running the probe other than the
timeout (binary missing, permission denied, ...) is caught by `do_GET`
and turned into a status-500 error envelope; the handler is a total
function on such outcomes and never propagates the fault. -/
theorem claim8_launch_failure_envelope (path msg : String) (ts : Int)
    (hpath : path ∈ ["/", "/health"]) :
    doGET path (.raised msg) ts =
      sendErrorResponse ("Health check error: " ++ msg) ts ∧
    (doGET path (.raised msg) ts).status = 500 := by
  have h : doGET path (.raised msg) ts =
      sendErrorResponse ("Health check error: " ++ msg) ts := by
    simp [doGET, hpath]
  exact ⟨h, by rw [h]; rfl⟩

/-- Witness for C8 with a permission-denied launch failure. -/
theorem claim8_witness :
    doGET "/" (.raised "Permission denied") 2 =
      sendErrorResponse ("Health check error: " ++ "Permission denied") 2 :=
  (claim8_launch_failure_envelope "/" "Permission denied" 2 (by simp)).1

/-- Timestamp dependence of `do_GET`: for a fixed path and probe outcome
the response is either an error envelope built from one fixed message
(varying only through the timestamp) or one fixed timestamp-independent
response. -/
theorem doGET_timestamp_shape (path : String) (probe : ProbeOutcome) :
    (∃ m, ∀ ts, doGET path probe ts = sendErrorResponse m ts) ∨
    (∃ r, ∀ ts, doGET path probe ts = r) := by
  by_cases hp : path ∈ (["/", "/health"] : List String)
  · cases probe with
    | completed out err rc =>
      by_cases hrc : rc = 0
      · subst hrc
        by_cases hj : jsonValid (cleanOutput out) = true
        · right
          refine ⟨⟨200, some "application/json", cleanOutput out⟩, fun ts => ?_⟩
          simp [doGET, hp, hj]
        · left
          refine ⟨"Invalid JSON output from health check", fun ts => ?_⟩
          simp [doGET, hp, hj]
      · left
        refine ⟨"Health check script failed: " ++ err, fun ts => ?_⟩
        simp [doGET, hp, hrc]
    | timedOut =>
      left
      refine ⟨"Health check timed out", fun ts => ?_⟩
      simp [doGET, hp]
    | raised msg =>
      left
      refine ⟨"Health check error: " ++ msg, fun ts => ?_⟩
      simp [doGET, hp]
  · right
    by_cases hping : path = "/ping"
    · refine ⟨⟨200, some "text/plain", "pong"⟩, fun ts => ?_⟩
      simp [doGET, hp, hping]
    · refine ⟨⟨404, some "application/json", "\x7b\"error\": \"Not found\"\x7d"⟩,
        fun ts => ?_⟩
      simp [doGET, hp, hping]

/-- C9 is refuted as stated: the same timed-out probe outcome handled at
two different wall-clock instants yields equal status codes but
different bodies, because the error envelope embeds the timestamp. -/
theorem claim9_counterexample :
    (doGET "/health" ProbeOutcome.timedOut 0).status =
      (doGET "/health" ProbeOutcome.timedOut 1).status ∧
    ¬ (doGET "/health" ProbeOutcome.timedOut 0).body =
      (doGET "/health" ProbeOutcome.timedOut 1).body := by
  decide

/-- C9 (amended): two handlings of identical requests against the same
probe result always give identical status codes; they give identical
responses when handled at the same wall-clock timestamp, and identical
bodies whenever the response is not a 500 error envelope (whose body
embeds the handling-time timestamp). -/
theorem claim9_determinism (path : String) (probe : ProbeOutcome)
    (ts1 ts2 : Int) :
    (doGET path probe ts1).status = (doGET path probe ts2).status ∧
    (ts1 = ts2 → doGET path probe ts1 = doGET path probe ts2) ∧
    ((doGET path probe ts1).status ≠ 500 →
      (doGET path probe ts1).body = (doGET path probe ts2).body) := by
  rcases doGET_timestamp_shape path probe with ⟨m, hm⟩ | ⟨r, hr⟩
  · refine ⟨by rw [hm ts1, hm ts2]; rfl, fun h => by rw [h], fun h => ?_⟩
    exact absurd (by rw [hm ts1]; rfl) h
  · exact ⟨by rw [hr ts1, hr ts2], fun _ => by rw [hr ts1, hr ts2],
      fun _ => by rw [hr ts1, hr ts2]⟩

/-- Witness for C9 (amended): a ping response at two different
timestamps has equal bodies. -/
theorem claim9_witness :
    (doGET "/ping" ProbeOutcome.timedOut 0).body =
      (doGET "/ping" ProbeOutcome.timedOut 1).body :=
  (claim9_determinism "/ping" ProbeOutcome.timedOut 0 1).2.2 (by decide)

/-- C10: when no line of the stripped stdout begins with the probe's
invocation path, sanitization is the identity on the stripped stdout
even if "EOF" occurs in it; a probe printing valid JSON containing
"EOF" as data still gets a 200 response with that text unchanged. -/
theorem claim10_no_script_lines_identity (stdout : String) (ts : Int)
    (h : ∀ line ∈ splitNl (pyStrip stdout).data,
      beginsWith scriptPath line = false) :
    cleanOutput stdout = pyStrip stdout ∧
    (jsonValid (pyStrip stdout) = true →
      doGET "/" (.completed stdout "" 0) ts =
        { status := 200, contentType := some "application/json",
          body := pyStrip stdout }) := by
  have hc : cleanOutput stdout = pyStrip stdout :=
    congrArg String.mk (cleanChars_of_all_lines_kept stdout.data h)
  refine ⟨hc, fun hj => ?_⟩
  simp [doGET, hc, hj]

/-- Witness for C10 at probe stdout `{"note": "EOF"}`. -/
theorem claim10_witness :
    cleanOutput "\x7b\"note\": \"EOF\"\x7d" = pyStrip "\x7b\"note\": \"EOF\"\x7d" ∧
    doGET "/" (.completed "\x7b\"note\": \"EOF\"\x7d" "" 0) 0 =
      { status := 200, contentType := some "application/json",
        body := pyStrip "\x7b\"note\": \"EOF\"\x7d" } :=
  ⟨(claim10_no_script_lines_identity "\x7b\"note\": \"EOF\"\x7d" 0 (by decide)).1,
   (claim10_no_script_lines_identity "\x7b\"note\": \"EOF\"\x7d" 0
     (by decide)).2 (by decide)⟩

end HealthCheckServer
